import Mathlib

/-!
Shallow embedding of the VibePilot pipeline (`src/main.py`): the paginated
fetcher `fetch_liked_songs`, the feature aggregator `get_audio_features`,
the rule-based classifier `classify_vibe`, and the playlist materializer
`create_playlists`.  Python numbers are modelled as rationals, Python
`None` as `Option.none`, Python dicts with string keys as ordered
association lists, and the remote service as explicit response functions.
A Python expression that can raise (`TypeError` on comparing `None`,
subscripting `None`) is modelled in `Except Unit`.
-/

/-- Closed list of vibe labels, the `VIBES` constant of main.py. -/
def VIBES : List String :=
  ["Chill Vibes", "Sad Bops", "Hype Gym", "Night Drive", "Lo-Fi Focus", "Romantic Mood"]

/-- Python numeric value that may be `None`. -/
abbrev PyNum := Option ℚ

/-- Python `a > b` on possibly-`None` numbers: comparing `None` raises `TypeError`. -/
def pyGt (a b : PyNum) : Except Unit Bool :=
  match a, b with
  | some x, some y => .ok (decide (x > y))
  | _, _ => .error ()

/-- Python `a < b` on possibly-`None` numbers. -/
def pyLt (a b : PyNum) : Except Unit Bool :=
  match a, b with
  | some x, some y => .ok (decide (x < y))
  | _, _ => .error ()

/-- Python `a >= b` on possibly-`None` numbers. -/
def pyGe (a b : PyNum) : Except Unit Bool :=
  match a, b with
  | some x, some y => .ok (decide (x ≥ y))
  | _, _ => .error ()

/-- Python `a <= b` on possibly-`None` numbers. -/
def pyLe (a b : PyNum) : Except Unit Bool :=
  match a, b with
  | some x, some y => .ok (decide (x ≤ y))
  | _, _ => .error ()

/-- Python short-circuit `and` on boolean-valued expressions: the right
operand is evaluated only when the left one is `True`. -/
def pyAnd (a b : Except Unit Bool) : Except Unit Bool :=
  match a with
  | .error e => .error e
  | .ok true => b
  | .ok false => .ok false

/-- Boolean test that the first character list starts the second one. -/
def listIsPre : List Char → List Char → Bool
  | [], _ => true
  | _ :: _, [] => false
  | a :: xs, b :: ys => a == b && listIsPre xs ys

/-- Boolean test that the first character list occurs contiguously inside
the second one. -/
def hasSub : List Char → List Char → Bool
  | needle, [] => needle.isEmpty
  | needle, b :: ys => listIsPre needle (b :: ys) || hasSub needle ys

/-- Python `needle in hay` on strings: substring containment. -/
def pyIn (needle hay : String) : Bool :=
  hasSub needle.data hay.data

/-- Python `s.lower()`, modelled characterwise (the genre tags in play are
ASCII). -/
def pyLower (s : String) : String :=
  ⟨s.data.map Char.toLower⟩

/-- Per-track descriptor dict as built by `get_audio_features`.  For each
numeric key, outer `none` means the key is absent from the dict and
`some none` means the key is present with the Python value `None`
(exactly what `af.get("valence")` stores when the feature record omits
the field). -/
structure FeatRecord where
  valence : Option PyNum := none
  energy : Option PyNum := none
  danceability : Option PyNum := none
  tempo : Option PyNum := none
  genres : Option (List String) := none
deriving DecidableEq

/-- Python `features.get(key, 0)`: an absent key defaults to `0`, a present
key returns the stored value even when that value is `None`. -/
def pyGet0 (field : Option PyNum) : PyNum :=
  match field with
  | none => some 0
  | some v => v

/-- One `if cond: return label` step of the Python rule cascade: an error in
the condition propagates, a true condition returns the label, otherwise
evaluation continues with the rest of the cascade. -/
def chain (cond : Except Unit Bool) (label : String) (rest : Except Unit String) :
    Except Unit String :=
  match cond with
  | .error e => .error e
  | .ok true => .ok label
  | .ok false => rest

/-- Body of `classify_vibe` after its local bindings: the rule cascade of
main.py lines 110-131 over the four numeric values and the already
lowercased genre list, with Python evaluation order (short-circuit `and`,
`TypeError` on comparing `None`). -/
def classifyCore (valence energy dance tempo : PyNum) (genres : List String) :
    Except Unit String :=
  chain (pyAnd (pyGt valence (some (mkRat 7 10))) (pyGt energy (some (mkRat 7 10)))) "Hype Gym"
    (chain (pyAnd (pyGt valence (some (mkRat 6 10)))
        (pyAnd (pyGt dance (some (mkRat 6 10))) (pyLt energy (some (mkRat 6 10))))) "Chill Vibes"
      (chain (pyAnd (pyLt valence (some (mkRat 3 10))) (pyLt energy (some (mkRat 5 10)))) "Sad Bops"
        (chain (pyAnd (pyLe (some 100) tempo)
            (pyAnd (pyLe tempo (some 130)) (pyGe energy (some (mkRat 5 10))))) "Night Drive"
          (if genres.any (fun g => pyIn "lo-fi" g) then .ok "Lo-Fi Focus"
           else
            chain (pyAnd (pyGe valence (some (mkRat 5 10))) (pyLt energy (some (mkRat 6 10)))) "Romantic Mood"
              (.ok "Chill Vibes")))))

/-- Embedding of `classify_vibe(features, prompt, openai_api_key)`.  The
numeric locals are `features.get(key, 0)` and the genre local lowercases
`features.get("genres", [])`.  The GPT hook before the final fallback only
sets a module attribute and `pass`es, so it contributes nothing to the
returned label. -/
def classify_vibe (features : FeatRecord) (prompt : Option String)
    (openai_api_key : Option String) : Except Unit String :=
  classifyCore (pyGet0 features.valence) (pyGet0 features.energy)
    (pyGet0 features.danceability) (pyGet0 features.tempo)
    ((features.genres.getD []).map pyLower)

/-- Rule cascade exactly as the specification words it (spec section 4.3),
over total numeric values and the raw genre list: the spec-side reference
point for the refinement claim about `classify_vibe`. -/
def classifySpec (valence energy danceability tempo : ℚ) (genres : List String) : String :=
  if valence > mkRat 7 10 ∧ energy > mkRat 7 10 then "Hype Gym"
  else if valence > mkRat 6 10 ∧ danceability > mkRat 6 10 ∧ energy < mkRat 6 10 then "Chill Vibes"
  else if valence < mkRat 3 10 ∧ energy < mkRat 5 10 then "Sad Bops"
  else if 100 ≤ tempo ∧ tempo ≤ 130 ∧ energy ≥ mkRat 5 10 then "Night Drive"
  else if genres.any (fun g => pyIn "lo-fi" (pyLower g)) then "Lo-Fi Focus"
  else if valence ≥ mkRat 5 10 ∧ energy < mkRat 6 10 then "Romantic Mood"
  else "Chill Vibes"

/-- Numeric value a well-formed descriptor field denotes: `0` when the key
is absent, the stored rational otherwise. -/
def dictVal (field : Option PyNum) : ℚ :=
  (pyGet0 field).getD 0

/-- A descriptor record is numerically well-formed when no numeric key is
present with the Python value `None` (such a stored `None` makes the
classifier's comparisons raise). -/
def FeatRecord.numOK (f : FeatRecord) : Prop :=
  f.valence ≠ some none ∧ f.energy ≠ some none ∧
    f.danceability ≠ some none ∧ f.tempo ≠ some none

/-- Embedding of the `fetch_liked_songs` loop (main.py lines 47-56).  The
service is a function from the requested page size and offset to the
returned page; the extra `Nat` argument is computation fuel (`none` is
returned only on fuel exhaustion, and `limit + 1` fuel is proved enough).
Besides the collected tracks, the embedding also records the sequence of
`(limit, offset)` page requests the loop issues. -/
def fetchAux {α : Type} (svc : Nat → Nat → List α) (limit : Nat) (tracks : List α)
    (offset : Nat) : Nat → Option (List α × List (Nat × Nat))
  | 0 => none
  | fuel + 1 =>
    if tracks.length < limit then
      let req := min 50 (limit - tracks.length)
      let items := svc req offset
      if items.isEmpty then some (tracks, [(req, offset)])
      else
        match fetchAux svc limit (tracks ++ items) (offset + items.length) fuel with
        | none => none
        | some (res, reqs) => some (res, (req, offset) :: reqs)
    else some (tracks, [])

/-- Embedding of `fetch_liked_songs(sp, limit)`: the loop started from an
empty track list and offset `0` (the Python default for `limit` is 1000). -/
def fetch_liked_songs {α : Type} (svc : Nat → Nat → List α) (limit : Nat) :
    Option (List α × List (Nat × Nat)) :=
  fetchAux svc limit [] 0 (limit + 1)

/-- Spec-worded description of a well-formed request trace (spec section
4.1): each page request asks for `min(50, remaining)` items at the current
offset, and the offset and collected count advance by the number of items
the service actually returned. -/
def reqsOK {α : Type} (svc : Nat → Nat → List α) (limit : Nat) :
    List (Nat × Nat) → Nat → Nat → Prop
  | [], _, _ => True
  | (l, o) :: rest, collected, offset =>
      l = min 50 (limit - collected) ∧ o = offset ∧
        reqsOK svc limit rest (collected + (svc l o).length) (offset + (svc l o).length)

/-- Reference to an artist inside a track object (only the id is used). -/
structure ArtistRef where
  id : String
deriving DecidableEq

/-- Underlying track object of a saved item: its id and its artist list. -/
structure TrackObj where
  id : String
  artists : List ArtistRef
deriving DecidableEq

/-- One element of the fetched saved-track list; `track` is `none` when the
item has no underlying track object (Python `item.get("track")` falsy). -/
structure SavedItem where
  track : Option TrackObj
deriving DecidableEq

/-- One non-null element of an `audio_features` response: the track id and
the four numeric fields, each of which the record may omit (`af.get`). -/
structure AudioFeat where
  id : String
  valence : PyNum
  energy : PyNum
  danceability : PyNum
  tempo : PyNum
deriving DecidableEq

/-- One element of an `artists` response; `genres` is `none` when the
artist record has no genres key (`artist.get("genres", [])`). -/
structure ArtistObj where
  genres : Option (List String)
deriving DecidableEq

/-- Bulk endpoints used by `get_audio_features`: `audio_features` returns
one possibly-null record per queried id, `artists` returns artist records
for the queried artist ids. -/
structure FeatService where
  audio_features : List String → List (Option AudioFeat)
  artists : List String → List ArtistObj

/-- Python dict update `d[k] = v` on an ordered association list: the value
is replaced in place when the key is present and appended otherwise. -/
def dictSet (d : List (String × FeatRecord)) (k : String) (v : FeatRecord) :
    List (String × FeatRecord) :=
  match d with
  | [] => [(k, v)]
  | (k', v') :: rest => if k' = k then (k, v) :: rest else (k', v') :: dictSet rest k v

/-- Python `k in d` / `d[k]` lookup on the ordered association list. -/
def dictGet? (d : List (String × FeatRecord)) (k : String) : Option FeatRecord :=
  match d with
  | [] => none
  | (k', v') :: rest => if k' = k then some v' else dictGet? rest k

/-- Start indices produced by Python `range(0, len, step)` for `step > 0`. -/
def chunkStarts (len step : Nat) : List Nat :=
  (List.range ((len + step - 1) / step)).map (fun i => i * step)

/-- Merge step of the genre loop body (main.py lines 82-87): `tid =
track["track"]["id"]` raises `TypeError` when the zipped item has no track
object; otherwise the artist's genres are stored under `tid`, creating the
entry when the numeric pass produced none. -/
def genreMergeStep (fs : List (String × FeatRecord)) (item : SavedItem)
    (artist : ArtistObj) : Except Unit (List (String × FeatRecord)) :=
  match item.track with
  | none => .error ()
  | some tr =>
    match dictGet? fs tr.id with
    | some r => .ok (dictSet fs tr.id { r with genres := some (artist.genres.getD []) })
    | none => .ok (dictSet fs tr.id { genres := some (artist.genres.getD []) })

/-- Embedding of `get_audio_features(sp, tracks)` (main.py lines 59-88).
The numeric pass queries `audio_features` in chunks of 100 track ids,
skipping null results; the genre pass queries `artists` in chunks of 50
first-artist ids and zips each artist chunk against
`tracks[chunk : chunk + len(ids)]` — the unfiltered saved-item list sliced
at the same indices as the filtered artist-id list, exactly as the source
does. -/
def get_audio_features (svc : FeatService) (tracks : List SavedItem) :
    Except Unit (List (String × FeatRecord)) := do
  let track_ids := tracks.filterMap (fun t => t.track.map TrackObj.id)
  let mut features : List (String × FeatRecord) := []
  for s in chunkStarts track_ids.length 100 do
    let ids := (track_ids.drop s).take 100
    let audio_feats := svc.audio_features ids
    for af? in audio_feats do
      match af? with
      | none => pure ()
      | some af =>
        features := dictSet features af.id
          { valence := some af.valence, energy := some af.energy,
            danceability := some af.danceability, tempo := some af.tempo,
            genres := none }
  let artist_ids := tracks.filterMap (fun t =>
    match t.track with
    | some tr =>
      match tr.artists with
      | a :: _ => some a.id
      | [] => none
    | none => none)
  for s in chunkStarts artist_ids.length 50 do
    let ids := (artist_ids.drop s).take 50
    let artistObjs := svc.artists ids
    for pair in ((tracks.drop s).take ids.length).zip artistObjs do
      features ← genreMergeStep features pair.1 pair.2
  return features

/-- Embedding of `create_playlists(sp, user_id, vibe_tracks)` (main.py
lines 134-143), written as a recursion over the grouping in iteration
order.  The playlist-creation endpoint is modelled as a function from the
user id and playlist name to the new playlist id; the first returned list
is `playlist_ids`, the second records the `playlist_add_items` calls. -/
def create_playlists (createId : String → String → String) (user_id : String) :
    List (String × List String) → List (String × String) × List (String × List String)
  | [] => ([], [])
  | (vibe, tracks) :: rest =>
    if tracks.isEmpty then create_playlists createId user_id rest
    else
      let pid := createId user_id vibe
      let r := create_playlists createId user_id rest
      ((vibe, pid) :: r.1, (pid, tracks) :: r.2)

/-- Descriptor record with every absent numeric key replaced by an explicit
stored `0`: used to state that absent keys are treated as zero. -/
def zeroFill (f : FeatRecord) : FeatRecord :=
  { valence := some (some (dictVal f.valence)), energy := some (some (dictVal f.energy)),
    danceability := some (some (dictVal f.danceability)),
    tempo := some (some (dictVal f.tempo)), genres := f.genres }

/-- Saved item whose track `"t0"` has an empty artist list. -/
def itemNoArtist : SavedItem :=
  { track := some { id := "t0", artists := [] } }

/-- Saved item whose track `"t1"` lists the artist `"a1"` first. -/
def itemWithArtist : SavedItem :=
  { track := some { id := "t1", artists := [{ id := "a1" }] } }

/-- Saved item with no underlying track object. -/
def itemNullTrack : SavedItem :=
  { track := none }

/-- Service whose feature lookup returns null for both queried tracks and
whose artist lookup knows one artist with genre list `["rock"]`. -/
def svcMisaligned : FeatService :=
  { audio_features := fun _ => [none, none],
    artists := fun _ => [{ genres := some ["rock"] }] }

/-- Service returning numeric features for track `"t1"` and one artist with
genre list `["rock"]`. -/
def svcOneFeat : FeatService :=
  { audio_features := fun _ =>
      [some { id := "t1", valence := some (mkRat 5 10), energy := some (mkRat 5 10),
              danceability := some (mkRat 5 10), tempo := some 120 }],
    artists := fun _ => [{ genres := some ["rock"] }] }

/-- Service whose feature record for `"t1"` omits the valence field (so the
aggregator stores Python `None` under the `"valence"` key). -/
def svcOmitsValence : FeatService :=
  { audio_features := fun _ =>
      [some { id := "t1", valence := none, energy := some (mkRat 8 10),
              danceability := some (mkRat 5 10), tempo := some 120 }],
    artists := fun _ => [] }

/-- Saved item for track `"t1"` with an empty artist list (so the genre
pass queries nothing). -/
def itemPlain : SavedItem :=
  { track := some { id := "t1", artists := [] } }

/-- Descriptor record the aggregator builds from `svcOmitsValence`: the
valence key is present with stored `None`. -/
def recStoredNone : FeatRecord :=
  { valence := some none, energy := some (some (mkRat 8 10)),
    danceability := some (some (mkRat 5 10)), tempo := some (some 120),
    genres := none }

/-- Descriptor record with valence and energy both 0.75 (matches rule 1). -/
def recHype : FeatRecord :=
  { valence := some (some (mkRat 75 100)), energy := some (some (mkRat 75 100)) }

/-- Descriptor record with valence 0.4 and the genre `"Lo-Fi Beats"`: rules
1-4 all fail and rule 5 matches case-insensitively. -/
def recLofi : FeatRecord :=
  { valence := some (some (mkRat 4 10)), genres := some ["Lo-Fi Beats"] }

/-- Descriptor record whose only genre is `"Lo-Fi"`. -/
def recUpper : FeatRecord :=
  { genres := some ["Lo-Fi"] }

/-- Descriptor record whose only genre is `"lO-fI"`, a re-casing of the
genre of `recUpper`. -/
def recLower : FeatRecord :=
  { genres := some ["lO-fI"] }

/-- Page service that always returns exactly the requested number of items. -/
def svcRep (l _o : Nat) : List Nat :=
  List.replicate l 0

/-- Page service whose library is empty: every page comes back empty. -/
def svcEmpty (_l _o : Nat) : List Nat :=
  []

/-- Playlist-creation endpoint that names every new playlist id `"pid"`. -/
def cidW (_u _v : String) : String :=
  "pid"

lemma fetchAux_step {α : Type} (svc : Nat → Nat → List α) (limit : Nat) (tracks : List α)
    (offset : Nat) {fuel : Nat} (h : 0 < fuel) :
    fetchAux svc limit tracks offset fuel =
      if tracks.length < limit then
        let req := min 50 (limit - tracks.length)
        let items := svc req offset
        if items.isEmpty then some (tracks, [(req, offset)])
        else
          match fetchAux svc limit (tracks ++ items) (offset + items.length) (fuel - 1) with
          | none => none
          | some (res, reqs) => some (res, (req, offset) :: reqs)
      else some (tracks, []) := by
  cases fuel with
  | zero => exact absurd h (by omega)
  | succ n => rfl

lemma fetchAux_isSome {α : Type} (svc : Nat → Nat → List α) (limit : Nat) :
    ∀ fuel tracks offset, limit - tracks.length < fuel →
      (fetchAux svc limit tracks offset fuel).isSome := by
  intro fuel
  induction fuel with
  | zero => intro tracks offset h; omega
  | succ n ih =>
    intro tracks offset h
    rw [fetchAux]
    by_cases hlt : tracks.length < limit
    · rw [if_pos hlt]
      by_cases he : (svc (min 50 (limit - tracks.length)) offset).isEmpty
      · simp [he]
      · simp only [he, if_false, Bool.false_eq_true]
        have hlen : 0 < (svc (min 50 (limit - tracks.length)) offset).length := by
          cases hsv : svc (min 50 (limit - tracks.length)) offset with
          | nil => rw [hsv] at he; simp at he
          | cons a l => simp
        have := ih (tracks ++ svc (min 50 (limit - tracks.length)) offset)
          (offset + (svc (min 50 (limit - tracks.length)) offset).length)
          (by simp only [List.length_append]; omega)
        cases hfa : fetchAux svc limit (tracks ++ svc (min 50 (limit - tracks.length)) offset)
            (offset + (svc (min 50 (limit - tracks.length)) offset).length) n with
        | none => rw [hfa] at this; simp at this
        | some r => simp [hfa]
    · simp [hlt]

/-- Soundness invariant of the fetch loop for a service that never returns
more items than requested: the result extends the accumulator by the
concatenation of the logged pages, stays within the cap, and the logged
requests form a well-formed trace. -/
lemma fetchAux_sound {α : Type} (svc : Nat → Nat → List α)
    (hb : ∀ l o, (svc l o).length ≤ l) (limit : Nat) :
    ∀ fuel tracks offset res reqs, tracks.length ≤ limit →
      fetchAux svc limit tracks offset fuel = some (res, reqs) →
      res = tracks ++ (reqs.map (fun ro => svc ro.1 ro.2)).flatten ∧
        res.length ≤ limit ∧ reqsOK svc limit reqs tracks.length offset := by
  intro fuel
  induction fuel with
  | zero => intro tracks offset res reqs _ h; exact absurd h (by simp [fetchAux])
  | succ n ih =>
    intro tracks offset res reqs hle h
    rw [fetchAux] at h
    by_cases hlt : tracks.length < limit
    · rw [if_pos hlt] at h
      by_cases he : (svc (min 50 (limit - tracks.length)) offset).isEmpty
      · simp only [he, if_true] at h
        obtain ⟨hres, hreqs⟩ := Prod.mk.injEq .. ▸ Option.some.injEq .. ▸ h
        have hnil : svc (min 50 (limit - tracks.length)) offset = [] :=
          List.isEmpty_iff.mp he
        subst hres hreqs
        refine ⟨by simp [hnil], hle, ?_⟩
        exact ⟨rfl, rfl, trivial⟩
      · simp only [he, if_false, Bool.false_eq_true] at h
        set items := svc (min 50 (limit - tracks.length)) offset with hitems
        cases hfa : fetchAux svc limit (tracks ++ items) (offset + items.length) n with
        | none => rw [hfa] at h; exact absurd h (by simp)
        | some r =>
          rw [hfa] at h
          obtain ⟨res', reqs'⟩ := r
          simp only [Option.some.injEq, Prod.mk.injEq] at h
          obtain ⟨hres, hreqs⟩ := h
          have hnewlen : (tracks ++ items).length ≤ limit := by
            have h1 : items.length ≤ min 50 (limit - tracks.length) := hb _ _
            simp only [List.length_append]
            omega
          obtain ⟨ih1, ih2, ih3⟩ := ih (tracks ++ items) (offset + items.length) res' reqs'
            hnewlen hfa
          subst hres hreqs
          refine ⟨?_, ih2, ?_⟩
          · simp only [List.map_cons, List.flatten_cons, ← hitems, List.append_assoc] at ih1 ⊢
            exact ih1
          · refine ⟨rfl, rfl, ?_⟩
            simpa [← hitems, List.length_append] using ih3
    · rw [if_neg hlt] at h
      obtain ⟨hres, hreqs⟩ := Prod.mk.injEq .. ▸ Option.some.injEq .. ▸ h
      subst hres hreqs
      exact ⟨by simp, hle, trivial⟩

lemma pyGt_some (x y : ℚ) : pyGt (some x) (some y) = .ok (decide (x > y)) := rfl

lemma pyLt_some (x y : ℚ) : pyLt (some x) (some y) = .ok (decide (x < y)) := rfl

lemma pyGe_some (x y : ℚ) : pyGe (some x) (some y) = .ok (decide (x ≥ y)) := rfl

lemma pyLe_some (x y : ℚ) : pyLe (some x) (some y) = .ok (decide (x ≤ y)) := rfl

lemma pyAnd_ok (a b : Bool) : pyAnd (.ok a) (.ok b) = .ok (a && b) := by
  cases a <;> rfl

lemma chain_ok (b : Bool) (label : String) (rest : Except Unit String) :
    chain (.ok b) label rest = if b then .ok label else rest := by
  cases b <;> rfl

lemma classifyCore_eq_spec (v e d t : ℚ) (gs : List String) :
    classifyCore (some v) (some e) (some d) (some t) (gs.map pyLower) =
      .ok (classifySpec v e d t gs) := by
  simp only [classifyCore, classifySpec, pyGt_some, pyLt_some, pyGe_some, pyLe_some,
    pyAnd_ok, chain_ok, List.any_map, Function.comp_def, ← Bool.decide_and,
    decide_eq_true_eq]
  split_ifs <;> rfl

lemma pyGet0_numOK {field : Option PyNum} (h : field ≠ some none) :
    pyGet0 field = some (dictVal field) := by
  cases field with
  | none => rfl
  | some v =>
    cases v with
    | none => exact absurd rfl h
    | some q => rfl

/-- Under numeric well-formedness, the embedded classifier agrees with the
spec-worded cascade on the defaulted numeric values. -/
lemma classify_eq_spec (f : FeatRecord) (hf : f.numOK) (p k : Option String) :
    classify_vibe f p k =
      .ok (classifySpec (dictVal f.valence) (dictVal f.energy)
        (dictVal f.danceability) (dictVal f.tempo) (f.genres.getD [])) := by
  obtain ⟨h1, h2, h3, h4⟩ := hf
  unfold classify_vibe
  rw [pyGet0_numOK h1, pyGet0_numOK h2, pyGet0_numOK h3, pyGet0_numOK h4]
  exact classifyCore_eq_spec _ _ _ _ _

lemma classifySpec_mem_VIBES (v e d t : ℚ) (gs : List String) :
    classifySpec v e d t gs ∈ VIBES := by
  unfold classifySpec VIBES
  split_ifs <;> simp

lemma isEmpty_false_of_length {α : Type} {l : List α} {n : Nat} (h : l.length = n)
    (hn : n ≠ 0) : l.isEmpty = false := by
  cases l with
  | nil => simp at h; omega
  | cons a l => rfl

/-- A service that always returns exactly as many items as requested makes
the 120-capped fetch issue exactly the three page requests 50, 50, 20. -/
lemma fetch_full_pages_120 {α : Type} (svc : Nat → Nat → List α)
    (hb : ∀ l o, (svc l o).length = l) :
    fetch_liked_songs svc 120 =
      some (svc 50 0 ++ svc 50 50 ++ svc 20 100, [(50, 0), (50, 50), (20, 100)]) := by
  have h1 := hb 50 0
  have h2 := hb 50 50
  have h3 := hb 20 100
  have hne1 := isEmpty_false_of_length h1 (by norm_num)
  have hne2 := isEmpty_false_of_length h2 (by norm_num)
  have hne3 := isEmpty_false_of_length h3 (by norm_num)
  have e3 : fetchAux svc 120 (svc 50 0 ++ svc 50 50 ++ svc 20 100) 120 118 =
      some (svc 50 0 ++ svc 50 50 ++ svc 20 100, []) := by
    rw [fetchAux_step _ _ _ _ (by norm_num : (0:ℕ) < 118)]
    simp [List.length_append, h1, h2, h3]
  have e2 : fetchAux svc 120 (svc 50 0 ++ svc 50 50) 100 119 =
      some (svc 50 0 ++ svc 50 50 ++ svc 20 100, [(20, 100)]) := by
    rw [fetchAux_step _ _ _ _ (by norm_num : (0:ℕ) < 119)]
    simp only [List.length_append, h1, h2, h3, Nat.reduceAdd, Nat.reduceSub, Nat.reduceLeDiff]
    norm_num [Nat.min_def, hne3, h3]
    rw [List.append_assoc] at e3
    rw [e3]
  have e1 : fetchAux svc 120 (svc 50 0) 50 120 =
      some (svc 50 0 ++ svc 50 50 ++ svc 20 100, [(50, 50), (20, 100)]) := by
    rw [fetchAux_step _ _ _ _ (by norm_num : (0:ℕ) < 120)]
    simp only [h1, Nat.reduceSub]
    norm_num [Nat.min_def, hne2, h2, e2]
  have e0 : fetchAux svc 120 ([] : List α) 0 121 =
      some (svc 50 0 ++ svc 50 50 ++ svc 20 100, [(50, 0), (50, 50), (20, 100)]) := by
    rw [fetchAux_step _ _ _ _ (by norm_num : (0:ℕ) < 121)]
    simp only [List.length_nil, Nat.reduceSub]
    norm_num [Nat.min_def, hne1, h1, List.nil_append, e1]
  exact e0

/-- C1: the claim says genre lists are always merged under the track id of
the track whose first listed artist was queried, and that artistless
tracks are excluded from genre lookup without error.  Evaluating the code
on a two-track list where the first track has no artist shows the
misaligned zip instead merging artist `a1`'s genres (queried for track
`t1`) under track `t0`, while `t1` is dropped from the result entirely. -/
theorem c1_genre_merge_misaligned :
    get_audio_features svcMisaligned [itemNoArtist, itemWithArtist] =
      .ok [("t0", { genres := some ["rock"] })] := rfl

/-- C2: the classifier evaluates the seven spec rules in the given fixed
priority order with first-match-wins semantics: on every numerically
well-formed descriptor record it returns exactly the label of the
spec-worded cascade `classifySpec` applied to the zero-defaulted values. -/
theorem c2_classifier_rule_order :
    ∀ (f : FeatRecord) (p k : Option String), f.numOK →
      classify_vibe f p k =
        .ok (classifySpec (dictVal f.valence) (dictVal f.energy)
          (dictVal f.danceability) (dictVal f.tempo) (f.genres.getD [])) :=
  fun f p k hf => classify_eq_spec f hf p k

/-- Witness for C2 at the rule-1 record with valence and energy 0.75. -/
theorem c2_witness :
    recHype.numOK ∧
      classify_vibe recHype none none =
        .ok (classifySpec (dictVal recHype.valence) (dictVal recHype.energy)
          (dictVal recHype.danceability) (dictVal recHype.tempo)
          (recHype.genres.getD [])) :=
  ⟨⟨by decide, by decide, by decide, by decide⟩,
    c2_classifier_rule_order recHype none none
      ⟨by decide, by decide, by decide, by decide⟩⟩

/-- C3: for a service that never returns more items than requested, the
fetched list is the in-order concatenation of the returned pages, never
exceeds the cap, and every page request asks for `min(50, remaining)` at
the advancing offset; in particular a cap of 120 against full pages of 50
issues exactly the three requests 50, 50, 20 and no fourth. -/
theorem c3_fetch_pagination :
    (∀ (α : Type) (svc : Nat → Nat → List α), (∀ l o, (svc l o).length ≤ l) →
        ∀ limit res reqs, fetch_liked_songs svc limit = some (res, reqs) →
          res = (reqs.map (fun ro => svc ro.1 ro.2)).flatten ∧
            res.length ≤ limit ∧ reqsOK svc limit reqs 0 0) ∧
      (∀ (α : Type) (svc : Nat → Nat → List α), (∀ l o, (svc l o).length = l) →
        ∃ res, fetch_liked_songs svc 120 = some (res, [(50, 0), (50, 50), (20, 100)]) ∧
          res.length = 120) := by
  constructor
  · intro α svc hb limit res reqs h
    have := fetchAux_sound svc hb limit (limit + 1) [] 0 res reqs (by simp) h
    simpa using this
  · intro α svc hb
    exact ⟨_, fetch_full_pages_120 svc hb,
      by simp [List.length_append, hb 50 0, hb 50 50, hb 20 100]⟩

/-- Witness for C3 at the exact-pages service `svcRep` with cap 120. -/
theorem c3_witness :
    (List.replicate 120 (0:ℕ) =
        (([(50, 0), (50, 50), (20, 100)] : List (Nat × Nat)).map
          (fun ro => svcRep ro.1 ro.2)).flatten ∧
      (List.replicate 120 (0:ℕ)).length ≤ 120 ∧
      reqsOK svcRep 120 [(50, 0), (50, 50), (20, 100)] 0 0) ∧
    (∃ res, fetch_liked_songs svcRep 120 = some (res, [(50, 0), (50, 50), (20, 100)]) ∧
      res.length = 120) :=
  ⟨c3_fetch_pagination.1 ℕ svcRep (fun l o => by simp [svcRep]) 120
      (List.replicate 120 0) [(50, 0), (50, 50), (20, 100)] (by rfl),
    c3_fetch_pagination.2 ℕ svcRep (fun l o => by simp [svcRep])⟩

/-- C4: the fetch loop always terminates (limit + 1 iterations of fuel
suffice for every service and cap), and an empty page received while the
count is still below the cap stops fetching immediately, returning the
partial list and issuing no further request. -/
theorem c4_fetch_termination :
    (∀ (α : Type) (svc : Nat → Nat → List α) (limit : Nat),
        ∃ r, fetch_liked_songs svc limit = some r) ∧
      (∀ (α : Type) (svc : Nat → Nat → List α) (limit : Nat) (tracks : List α)
        (offset fuel : Nat), tracks.length < limit →
        svc (min 50 (limit - tracks.length)) offset = [] →
        fetchAux svc limit tracks offset (fuel + 1) =
          some (tracks, [(min 50 (limit - tracks.length), offset)])) := by
  constructor
  · intro α svc limit
    have h := fetchAux_isSome svc limit (limit + 1) [] 0
      (by simp only [List.length_nil]; omega)
    exact Option.isSome_iff_exists.mp h
  · intro α svc limit tracks offset fuel hlt he
    rw [fetchAux, if_pos hlt]
    simp [he]

/-- Witness for C4 at the always-empty service. -/
theorem c4_witness :
    (∃ r, fetch_liked_songs svcEmpty 5 = some r) ∧
      fetchAux svcEmpty 10 [] 0 (99 + 1) = some ([], [(10, 0)]) :=
  ⟨c4_fetch_termination.1 ℕ svcEmpty 5,
    c4_fetch_termination.2 ℕ svcEmpty 10 [] 0 99 (by decide) rfl⟩

/-- C5: on every numerically well-formed descriptor record the classifier
returns `.ok` of one of the six labels in `VIBES`. -/
theorem c5_classifier_total :
    ∀ (f : FeatRecord) (p k : Option String), f.numOK →
      ∃ lbl, classify_vibe f p k = .ok lbl ∧ lbl ∈ VIBES :=
  fun f p k hf =>
    ⟨_, classify_eq_spec f hf p k, classifySpec_mem_VIBES _ _ _ _ _⟩

/-- Witness for C5 at the empty descriptor record. -/
theorem c5_witness :
    ({} : FeatRecord).numOK ∧
      ∃ lbl, classify_vibe {} none none = .ok lbl ∧ lbl ∈ VIBES :=
  ⟨⟨by decide, by decide, by decide, by decide⟩,
    c5_classifier_total {} none none ⟨by decide, by decide, by decide, by decide⟩⟩

/-- C6 counterexample: the claim says the empty descriptor set classifies
as Chill Vibes via the default fallback, but the zero defaults satisfy
rule 3 (valence 0 < 0.3 and energy 0 < 0.5), so the code returns Sad
Bops. -/
theorem c6_counterexample :
    classify_vibe {} none none = .ok "Sad Bops" ∧
      classify_vibe {} none none ≠ .ok "Chill Vibes" := by
  refine ⟨rfl, fun h => ?_⟩
  rw [show classify_vibe {} none none = .ok "Sad Bops" from rfl] at h
  exact absurd (Except.ok.inj h) (by decide)

/-- C6 (amended): a numeric key that is absent from the descriptor dict is
tolerated and treated as zero — classification is unchanged by filling
absent keys with stored 0 and always returns a label — and the empty
descriptor set classifies as Sad Bops (zero defaults satisfy rule 3); a
key stored with Python `None`, as the aggregator builds when the service's
feature record omits the value, instead raises a `TypeError`. -/
theorem c6_zero_defaulting :
    (∀ (f : FeatRecord) (p k : Option String), f.numOK →
        classify_vibe f p k = classify_vibe (zeroFill f) p k ∧
          ∃ lbl, classify_vibe f p k = .ok lbl) ∧
      classify_vibe {} none none = .ok "Sad Bops" ∧
      get_audio_features svcOmitsValence [itemPlain] = .ok [("t1", recStoredNone)] ∧
      classify_vibe recStoredNone none none = .error () := by
  refine ⟨?_, rfl, rfl, rfl⟩
  intro f p k hf
  refine ⟨?_, ⟨_, classify_eq_spec f hf p k⟩⟩
  obtain ⟨h1, h2, h3, h4⟩ := hf
  unfold classify_vibe zeroFill
  rw [pyGet0_numOK h1, pyGet0_numOK h2, pyGet0_numOK h3, pyGet0_numOK h4]
  rfl

/-- Witness for the amended C6 at the empty descriptor record. -/
theorem c6_witness :
    classify_vibe {} none none = classify_vibe (zeroFill {}) none none ∧
      ∃ lbl, classify_vibe {} none none = .ok lbl :=
  c6_zero_defaulting.1 {} none none ⟨by decide, by decide, by decide, by decide⟩

/-- C7: the claim says missing per-track data is never fatal, but a fetched
entry with no underlying track object that the buggy genre zip pairs with
an artist makes `track["track"]["id"]` subscript `None`: the aggregator
raises instead of returning the mapping (which already held `t1`'s numeric
features). -/
theorem c7_aggregator_fatal_typeerror :
    get_audio_features svcOneFeat [itemNullTrack, itemWithArtist] = .error () := rfl

/-- C8: the GPT hook is inert — for every descriptor record the prompt and
credential inputs never change the classification result. -/
theorem c8_hook_inert :
    ∀ (f : FeatRecord) (p k : Option String),
      classify_vibe f p k = classify_vibe f none none :=
  fun _ _ _ => rfl

/-- C9: the playlist materializer creates playlists exactly for the labels
whose track list is non-empty, and every label in the output mapping has a
non-empty track list in the input grouping. -/
theorem c9_no_empty_playlists :
    ∀ (createId : String → String → String) (user : String)
      (g : List (String × List String)),
      (create_playlists createId user g).1.map Prod.fst =
          (g.filter (fun vt => !vt.2.isEmpty)).map Prod.fst ∧
        ∀ v pid, (v, pid) ∈ (create_playlists createId user g).1 →
          ∃ ts, (v, ts) ∈ g ∧ ts ≠ [] := by
  intro createId user g
  induction g with
  | nil => exact ⟨rfl, by simp [create_playlists]⟩
  | cons hd tl ih =>
    obtain ⟨vibe, ts⟩ := hd
    by_cases hts : ts.isEmpty
    · have hts' : ts = [] := by simpa [List.isEmpty_iff] using hts
      constructor
      · simp only [create_playlists, hts, if_true, List.filter_cons, hts',
          List.isEmpty_nil, Bool.not_true]
        exact ih.1
      · intro v pid hmem
        rw [create_playlists, if_pos hts] at hmem
        obtain ⟨ts', hmem', hne⟩ := ih.2 v pid hmem
        exact ⟨ts', List.mem_cons_of_mem _ hmem', hne⟩
    · constructor
      · simp only [create_playlists, hts, if_false, List.map_cons, List.filter_cons,
          Bool.not_eq_true', hts, Bool.not_false]
        simp only [show ts.isEmpty = false from by simpa using hts, Bool.not_false,
          if_true, List.map_cons]
        exact congrArg _ ih.1
      · intro v pid hmem
        rw [create_playlists, if_neg hts] at hmem
        rcases List.mem_cons.mp hmem with heq | hmem'
        · obtain ⟨hv, _⟩ := Prod.mk.injEq .. ▸ heq
          exact ⟨ts, by rw [hv]; exact List.mem_cons_self _ _,
            fun hnil => hts (by simp [hnil])⟩
        · obtain ⟨ts', hmem'', hne⟩ := ih.2 v pid hmem'
          exact ⟨ts', List.mem_cons_of_mem _ hmem'', hne⟩

/-- Witness for C9 at a two-label grouping with one empty group. -/
theorem c9_witness :
    ((create_playlists cidW "u" [("A", ["s"]), ("B", [])]).1.map Prod.fst =
        (([("A", ["s"]), ("B", [])] : List (String × List String)).filter
          (fun vt => !vt.2.isEmpty)).map Prod.fst) ∧
      ∃ ts, ("A", ts) ∈ [("A", ["s"]), ("B", [])] ∧ ts ≠ [] :=
  ⟨(c9_no_empty_playlists cidW "u" [("A", ["s"]), ("B", [])]).1,
    (c9_no_empty_playlists cidW "u" [("A", ["s"]), ("B", [])]).2 "A" "pid" (by decide)⟩

/-- C10: when rules 1-4 all fail, a genre containing "lo-fi" up to case
makes the classifier return Lo-Fi Focus, and re-casing any genre strings
(keeping their lowercasings equal) never changes the classification. -/
theorem c10_lofi_case_insensitive :
    (∀ (f : FeatRecord) (p k : Option String), f.numOK →
        ¬(dictVal f.valence > mkRat 7 10 ∧ dictVal f.energy > mkRat 7 10) →
        ¬(dictVal f.valence > mkRat 6 10 ∧ dictVal f.danceability > mkRat 6 10 ∧
            dictVal f.energy < mkRat 6 10) →
        ¬(dictVal f.valence < mkRat 3 10 ∧ dictVal f.energy < mkRat 5 10) →
        ¬(100 ≤ dictVal f.tempo ∧ dictVal f.tempo ≤ 130 ∧
            dictVal f.energy ≥ mkRat 5 10) →
        (∃ g ∈ f.genres.getD [], pyIn "lo-fi" (pyLower g) = true) →
        classify_vibe f p k = .ok "Lo-Fi Focus") ∧
      (∀ (f f' : FeatRecord) (p k : Option String),
        f.valence = f'.valence → f.energy = f'.energy →
        f.danceability = f'.danceability → f.tempo = f'.tempo →
        (f.genres.getD []).map pyLower = (f'.genres.getD []).map pyLower →
        classify_vibe f p k = classify_vibe f' p k) := by
  constructor
  · intro f p k hf hn1 hn2 hn3 hn4 hg
    have h5 : ((f.genres.getD []).any fun g => pyIn "lo-fi" (pyLower g)) = true := by
      obtain ⟨g, hgmem, hpy⟩ := hg
      exact List.any_eq_true.mpr ⟨g, hgmem, hpy⟩
    rw [classify_eq_spec f hf p k]
    unfold classifySpec
    rw [if_neg hn1, if_neg hn2, if_neg hn3, if_neg hn4, if_pos h5]
  · intro f f' p k h1 h2 h3 h4 h5
    unfold classify_vibe
    rw [h1, h2, h3, h4, h5]

/-- Witness for C10: `"Lo-Fi Beats"` triggers rule 5 on `recLofi`, and
re-casing `"Lo-Fi"` to `"lO-fI"` leaves the classification unchanged. -/
theorem c10_witness :
    classify_vibe recLofi none none = .ok "Lo-Fi Focus" ∧
      classify_vibe recUpper none none = classify_vibe recLower none none :=
  ⟨c10_lofi_case_insensitive.1 recLofi none none
      ⟨by decide, by decide, by decide, by decide⟩ (by decide) (by decide) (by decide)
      (by decide) (by decide),
    c10_lofi_case_insensitive.2 recUpper recLower none none rfl rfl rfl rfl (by decide)⟩
